import Mathlib

/-!
Shallow embedding of `src/scripts/utils/test-monitor.js` (class `TestMonitor`),
a browser-side exam-integrity monitor.  Pure data (strings, lists, rationals)
replaces DOM objects; side effects (callbacks, dispatched events,
`preventDefault`) are reified as an `Effect` output list; the wall clock and
the external camera/detector services are passed in as explicit inputs.
-/

namespace TestMonitor

/-- Severity level of a violation (`'low' | 'medium' | 'high'` strings in JS). -/
inductive Severity where
  | low
  | medium
  | high
deriving DecidableEq, Repr

/-- A violation record: `{ type, timestamp, severity }` built in `recordViolation`. -/
structure Violation where
  vtype : String
  timestamp : String
  severity : Severity
deriving DecidableEq, Repr

/-- Constructor options (`this.options`); the two callbacks are modelled as
`Effect`s in the output trace instead of function fields. -/
structure MonitorOptions where
  enableCameraMonitoring : Bool := true
  enableTabSwitchDetection : Bool := true
  enableFullscreenMonitoring : Bool := true
  enableKeyboardMonitoring : Bool := true
deriving DecidableEq, Repr

/-- One track of the acquired `MediaStream`; `stop()` sets `stopped := true`. -/
structure Track where
  stopped : Bool
deriving DecidableEq, Repr

/-- The hidden `<video>` element holding the capture surface; `remove()`
detaches it from the document. -/
structure VideoElement where
  attached : Bool
deriving DecidableEq, Repr

/-- Mutable fields of a `TestMonitor` instance. -/
structure MonitorState where
  isActive : Bool
  violations : List Violation
  stream : Option (List Track)
  video : Option VideoElement
  faceDetectionModel : Bool
  lastFacePosition : Option (ℚ × ℚ)
  lastBrightness : Option ℚ
  alertThreshold : ℕ
  listenersRegistered : Bool
deriving DecidableEq, Repr

/-- Field values set by the constructor (`lastBrightness` is never initialised
in the constructor, i.e. `undefined`; `listenersRegistered` records whether
`setupEventListeners()` has run). -/
def initialState : MonitorState :=
  { isActive := false
    violations := []
    stream := none
    video := none
    faceDetectionModel := false
    lastFacePosition := none
    lastBrightness := none
    alertThreshold := 3
    listenersRegistered := false }

/-- Observable side effects of the monitor, in program order. -/
inductive Effect where
  | onViolationCall (v : Violation) (log : List Violation)
  | autoSubmit (reason : String) (violations : List Violation)
  | onCameraErrorCall
  | preventDefault
  | startCameraLoop
  | requestFullscreen
deriving DecidableEq, Repr

/-- `a` is a prefix of `b`, on character lists. -/
def startsWithChars : List Char → List Char → Bool
  | [], _ => true
  | _ :: _, [] => false
  | a :: as, b :: bs => a == b && startsWithChars as bs

/-- `sub` occurs as a contiguous run inside the second list. -/
def hasSubChars (sub : List Char) : List Char → Bool
  | [] => sub.isEmpty
  | c :: rest => startsWithChars sub (c :: rest) || hasSubChars sub rest

/-- JavaScript `s.includes(sub)`: substring containment. -/
def jsIncludes (s sub : String) : Bool :=
  hasSubChars sub.data s.data

/-- The `highSeverity` table of `getViolationSeverity`. -/
def highSeverityList : List String :=
  ["Tab switch detected", "Exited fullscreen mode", "Window lost focus"]

/-- The `mediumSeverity` table of `getViolationSeverity`. -/
def mediumSeverityList : List String :=
  ["No face detected", "Suspicious head movement"]

/-- `getViolationSeverity(type)`: substring-match the high table, then the
medium table, else low. -/
def getViolationSeverity (t : String) : Severity :=
  if highSeverityList.any (fun v => jsIncludes t v) then .high
  else if mediumSeverityList.any (fun v => jsIncludes t v) then .medium
  else .low

/-- `recordViolation(type)`: build the violation with the current instant
`ts`, push it, invoke `onViolation(violation, this.violations)`, then run the
threshold policy (`triggerAutoSubmit` dispatches the auto-submit event). -/
def recordViolation (t ts : String) (st : MonitorState) :
    MonitorState × List Effect :=
  let violation : Violation := ⟨t, ts, getViolationSeverity t⟩
  let log := st.violations ++ [violation]
  let st' := { st with violations := log }
  if log.length ≥ st.alertThreshold then
    (st', [.onViolationCall violation log,
           .autoSubmit "Multiple violations detected" log])
  else
    (st', [.onViolationCall violation log])

/-- A DOM event observable by the listeners `setupEventListeners` registers. -/
inductive BrowserEvent where
  | visibilitychange (documentHidden : Bool)
  | blur
  | fullscreenchange (fullscreenElement : Bool)
  | keydown (key : String) (ctrlKey shiftKey altKey : Bool)
  | contextmenu
  | selectstart
deriving DecidableEq, Repr

/-- The `blockedKeys` array of the keydown listener. -/
def blockedKeys : List String := ["Escape", "F11", "F12", "PrintScreen"]

/-- The `blockedCombos` disjunction of the keydown listener. -/
def keydownBlocked (key : String) (ctrlKey shiftKey altKey : Bool) : Bool :=
  blockedKeys.contains key ||
    ((ctrlKey && key == "c") ||
     (ctrlKey && key == "v") ||
     (ctrlKey && shiftKey && key == "I") ||
     (altKey && key == "Tab"))

/-- Dispatch of one DOM event to the listeners of `setupEventListeners`:
a listener runs only if its config flag registered it (context-menu and
select-start listeners are always registered), and each body gates on
`this.isActive`. -/
def handleEvent (opts : MonitorOptions) (ev : BrowserEvent) (ts : String)
    (st : MonitorState) : MonitorState × List Effect :=
  match ev with
  | .visibilitychange documentHidden =>
      if opts.enableTabSwitchDetection then
        if documentHidden && st.isActive then
          recordViolation "Tab switch detected" ts st
        else (st, [])
      else (st, [])
  | .blur =>
      if opts.enableTabSwitchDetection then
        if st.isActive then recordViolation "Window lost focus" ts st
        else (st, [])
      else (st, [])
  | .fullscreenchange fullscreenElement =>
      if opts.enableFullscreenMonitoring then
        if !fullscreenElement && st.isActive then
          recordViolation "Exited fullscreen mode" ts st
        else (st, [])
      else (st, [])
  | .keydown key ctrlKey shiftKey altKey =>
      if opts.enableKeyboardMonitoring then
        if !st.isActive then (st, [])
        else if keydownBlocked key ctrlKey shiftKey altKey then
          let r := recordViolation ("Blocked key pressed: " ++ key) ts st
          (r.1, .preventDefault :: r.2)
        else (st, [])
      else (st, [])
  | .contextmenu =>
      if st.isActive then
        let r := recordViolation "Right-click attempted" ts st
        (r.1, .preventDefault :: r.2)
      else (st, [])
  | .selectstart =>
      if st.isActive then (st, [.preventDefault]) else (st, [])

/-- Deliver a sequence of timestamped DOM events, threading the state. -/
def runEvents (opts : MonitorOptions) (evs : List (BrowserEvent × String))
    (st : MonitorState) : MonitorState :=
  evs.foldl (fun s e => (handleEvent opts e.1 e.2 s).1) st

/-- Outcome of the external capture/detector acquisition consumed by
`initialize`: either `getUserMedia` resolves with a stream (and
`'FaceDetector' in window` may provide a native detector), or it rejects. -/
inductive CameraResult where
  | ok (tracks : List Track) (hasNativeDetector : Bool)
  | err
deriving DecidableEq, Repr

/-- `initialize()`: with camera monitoring enabled, `setupCamera()` then
`loadFaceDetection()` run first inside the `try`; `setupEventListeners()`
runs afterwards, so a capture failure jumps to the `catch` (invoke
`onCameraError`, return `false`) before any listener is registered.
Returns (state, returned boolean, effects). -/
def initMonitor (opts : MonitorOptions) (cam : CameraResult)
    (st : MonitorState) : MonitorState × Bool × List Effect :=
  if opts.enableCameraMonitoring then
    match cam with
    | .ok tracks hasNativeDetector =>
        let st' := { st with
          stream := some tracks
          video := some ⟨true⟩
          faceDetectionModel := hasNativeDetector
          listenersRegistered := true }
        (st', true, [])
    | .err => (st, false, [.onCameraErrorCall])
  else
    ({ st with listenersRegistered := true }, true, [])

/-- `startMonitoring()`: set `isActive := true`, clear `violations`, then
(as effects) start the camera sampler when camera monitoring is enabled and a
video element exists, and request fullscreen when enabled. -/
def startMonitoring (opts : MonitorOptions) (st : MonitorState) :
    MonitorState × List Effect :=
  let st' := { st with isActive := true, violations := [] }
  (st',
    (if opts.enableCameraMonitoring && st'.video.isSome
     then [Effect.startCameraLoop] else []) ++
    (if opts.enableFullscreenMonitoring
     then [Effect.requestFullscreen] else []))

/-- `stopMonitoring()`: set `isActive := false`, `stop()` every track of the
stream if one exists, and `remove()` the video element if one exists. -/
def stopMonitoring (st : MonitorState) : MonitorState :=
  { st with
    isActive := false
    stream := st.stream.map (List.map fun _ => ⟨true⟩)
    video := st.video.map fun _ => ⟨false⟩ }

/-- Every track of the (optional) stream has been stopped. -/
def allTracksStopped : Option (List Track) → Bool
  | none => true
  | some tracks => tracks.all (·.stopped)

/-- The (optional) video capture surface is not attached to the document. -/
def videoDetached : Option VideoElement → Bool
  | none => true
  | some v => !v.attached

/-- `face.boundingBox` of a detected face. -/
structure BoundingBox where
  x : ℚ
  y : ℚ
  width : ℚ
  height : ℚ
deriving DecidableEq, Repr

/-- One face returned by `faceDetectionModel.detect`. -/
structure Face where
  boundingBox : BoundingBox
deriving DecidableEq, Repr

/-- Outcome of the awaited `detect` call: a face list, or a rejection
(caught and logged inside `analyzeFacePosition`). -/
inductive DetectOutcome where
  | ok (faces : List Face)
  | err
deriving DecidableEq, Repr

/-- One RGBA pixel of the captured `ImageData` (the JS code walks the flat
`data` array four bytes at a time). -/
structure Pixel where
  r : ℚ
  g : ℚ
  b : ℚ
  a : ℚ
deriving DecidableEq, Repr

/-- The `currentPosition` computed from a face's bounding box. -/
def faceCenter (face : Face) : ℚ × ℚ :=
  (face.boundingBox.x + face.boundingBox.width / 2,
   face.boundingBox.y + face.boundingBox.height / 2)

/-- Native branch of `analyzeFacePosition` (runs when `faceDetectionModel`
is set): zero faces records the no-face violation and returns; one face
compares its center with `lastFacePosition` (when that is non-null) and
records the head-movement violation when `deltaX > 100 || deltaY > 50`;
the center is then stored.  A rejected `detect` is caught: no effect. -/
def analyzeNative (ts : String) (st : MonitorState) (detect : DetectOutcome) :
    MonitorState × List Effect :=
  match detect with
  | .err => (st, [])
  | .ok [] => recordViolation "No face detected - looking away" ts st
  | .ok (face :: _) =>
      let currentPosition := faceCenter face
      let r :=
        match st.lastFacePosition with
        | some last =>
            let deltaX := |currentPosition.1 - last.1|
            let deltaY := |currentPosition.2 - last.2|
            if deltaX > 100 ∨ deltaY > 50 then
              recordViolation "Suspicious head movement detected" ts st
            else (st, [])
        | none => (st, [])
      ({ r.1 with lastFacePosition := some currentPosition }, r.2)

/-- Mean per-pixel luminance of the frame: sum of `(r + g + b) / 3` over the
pixels, divided by the pixel count (`pixels.length / 4` in JS). -/
def meanBrightness (pixels : List Pixel) : ℚ :=
  (pixels.foldl (fun acc p => acc + (p.r + p.g + p.b) / 3) 0)
    / (pixels.length : ℚ)

/-- JavaScript truthiness of the numeric field `this.lastBrightness`:
`undefined` (modelled `none`) and the number `0` are falsy. -/
def jsNumTruthy : Option ℚ → Bool
  | none => false
  | some q => q != 0

/-- Fallback branch of `analyzeFacePosition` (no native detection):
`if (this.lastBrightness && Math.abs(brightness - this.lastBrightness) > 20)`
records the movement violation; the new brightness is then stored. -/
def analyzeFallback (ts : String) (st : MonitorState) (pixels : List Pixel) :
    MonitorState × List Effect :=
  let brightness := meanBrightness pixels
  let r :=
    if jsNumTruthy st.lastBrightness = true ∧
        |brightness - st.lastBrightness.getD 0| > 20 then
      recordViolation "Significant movement detected" ts st
    else (st, [])
  ({ r.1 with lastBrightness := some brightness }, r.2)

/-- `analyzeFacePosition(imageData)`: native path when a detection model was
loaded, brightness fallback otherwise. -/
def analyzeFacePosition (ts : String) (st : MonitorState)
    (detect : DetectOutcome) (pixels : List Pixel) :
    MonitorState × List Effect :=
  if st.faceDetectionModel then analyzeNative ts st detect
  else analyzeFallback ts st pixels

/-- One cycle of `startCameraAnalysis()`: return immediately unless active
with a video element; otherwise capture the frame, `await` the analysis
(errors from it are caught and logged), and schedule the next cycle via
`setTimeout(.., 1000)` only if `this.isActive` still holds.
`stopDuringAnalysis` models the host invoking `stopMonitoring()` while the
analysis is awaited — the only interleaving point of the event loop.
Returns (state, effects, whether a next cycle was scheduled). -/
def startCameraAnalysis (st : MonitorState) (detect : DetectOutcome)
    (pixels : List Pixel) (ts : String) (stopDuringAnalysis : Bool) :
    MonitorState × List Effect × Bool :=
  if st.isActive && st.video.isSome then
    let r := analyzeFacePosition ts st detect pixels
    let st' := if stopDuringAnalysis then stopMonitoring r.1 else r.1
    (st', r.2, st'.isActive)
  else
    (st, [], false)

/-- JavaScript object update `acc[k] = (acc[k] || 0) + 1` on an association
list with unique keys. -/
def bump {α : Type} [DecidableEq α] : List (α × ℕ) → α → List (α × ℕ)
  | [], k => [(k, 1)]
  | (k', n) :: rest, k =>
      if k' = k then (k', n + 1) :: rest else (k', n) :: bump rest k

/-- The `reduce` loops of `getViolationSummary`, counting violations by a
key. -/
def countsOf {α : Type} [DecidableEq α] (key : Violation → α)
    (vs : List Violation) : List (α × ℕ) :=
  vs.foldl (fun acc v => bump acc (key v)) []

/-- Return value of `getViolationSummary()`. -/
structure Summary where
  total : ℕ
  byType : List (String × ℕ)
  bySeverity : List (Severity × ℕ)
  violations : List Violation
deriving DecidableEq, Repr

/-- `getViolationSummary()`: read-only aggregation of `this.violations`. -/
def getViolationSummary (st : MonitorState) : Summary :=
  { total := st.violations.length
    byType := countsOf (·.vtype) st.violations
    bySeverity := countsOf (·.severity) st.violations
    violations := st.violations }

/-- Total of the counts held in an aggregation object. -/
def sumCounts {α : Type} : List (α × ℕ) → ℕ
  | [] => 0
  | p :: rest => p.2 + sumCounts rest

/-- The JS defaults: `new TestMonitor({})`. -/
def defaultOptions : MonitorOptions := {}

/-- Number of auto-submit signals in an effect trace. -/
def countAutoSubmit (effs : List Effect) : ℕ :=
  (effs.filter fun e =>
    match e with
    | .autoSubmit _ _ => true
    | _ => false).length

theorem recordViolation_violations (t ts : String) (st : MonitorState) :
    (recordViolation t ts st).1.violations =
      st.violations ++ [⟨t, ts, getViolationSeverity t⟩] := by
  simp only [recordViolation]
  split_ifs <;> rfl

theorem recordViolation_fields (t ts : String) (st : MonitorState) :
    (recordViolation t ts st).1.isActive = st.isActive ∧
    (recordViolation t ts st).1.lastFacePosition = st.lastFacePosition ∧
    (recordViolation t ts st).1.lastBrightness = st.lastBrightness ∧
    (recordViolation t ts st).1.alertThreshold = st.alertThreshold := by
  simp only [recordViolation]
  split_ifs <;> exact ⟨rfl, rfl, rfl, rfl⟩

theorem sumCounts_bump {α : Type} [DecidableEq α]
    (acc : List (α × ℕ)) (k : α) :
    sumCounts (bump acc k) = sumCounts acc + 1 := by
  induction acc with
  | nil => rfl
  | cons p rest ih =>
      obtain ⟨k', n⟩ := p
      unfold bump
      split
      · simp [sumCounts]
        omega
      · simp [sumCounts, ih]
        omega

theorem sumCounts_foldl_bump {α : Type} [DecidableEq α] (key : Violation → α)
    (vs : List Violation) :
    ∀ acc, sumCounts (vs.foldl (fun a v => bump a (key v)) acc) =
      sumCounts acc + vs.length := by
  induction vs with
  | nil => intro acc; simp
  | cons v rest ih =>
      intro acc
      simp only [List.foldl_cons, List.length_cons]
      rw [ih, sumCounts_bump]
      omega

theorem sumCounts_countsOf {α : Type} [DecidableEq α] (key : Violation → α)
    (vs : List Violation) : sumCounts (countsOf key vs) = vs.length := by
  unfold countsOf
  rw [sumCounts_foldl_bump]
  simp [sumCounts]

/-- C3 (confirmed): the severity classifier is a pure function of the type
string, evaluated in priority order — a high-table substring match wins,
then a medium-table match, otherwise low; "Blocked key pressed: I" matches
neither table and resolves to low. -/
theorem getViolationSeverity_spec (t : String) :
    (getViolationSeverity t = .high ↔
      (highSeverityList.any fun v => jsIncludes t v) = true) ∧
    (getViolationSeverity t = .medium ↔
      ((highSeverityList.any fun v => jsIncludes t v) = false ∧
       (mediumSeverityList.any fun v => jsIncludes t v) = true)) ∧
    (getViolationSeverity t = .low ↔
      ((highSeverityList.any fun v => jsIncludes t v) = false ∧
       (mediumSeverityList.any fun v => jsIncludes t v) = false)) ∧
    getViolationSeverity "Blocked key pressed: I" = .low := by
  refine ⟨?_, ?_, ?_, by decide⟩ <;>
    cases hh : (highSeverityList.any fun v => jsIncludes t v) <;>
      cases hm : (mediumSeverityList.any fun v => jsIncludes t v) <;>
        simp [getViolationSeverity, hh, hm]

/-- C4 (confirmed): `getViolationSummary()` is a read-only aggregation:
`total` is the log length, the `byType` counts and the `bySeverity` counts
each sum to `total`, and `violations` is the full log. -/
theorem getViolationSummary_spec (st : MonitorState) :
    (getViolationSummary st).total = st.violations.length ∧
    sumCounts (getViolationSummary st).byType = (getViolationSummary st).total ∧
    sumCounts (getViolationSummary st).bySeverity = (getViolationSummary st).total ∧
    (getViolationSummary st).violations = st.violations :=
  ⟨rfl, sumCounts_countsOf _ _, sumCounts_countsOf _ _, rfl⟩

/-- C5 (confirmed): `recordViolation` raises the auto-submit signal — with
reason "Multiple violations detected" and the full post-append log — exactly
when the post-append log length reaches `alertThreshold`; with the default
threshold 3, violations 1 and 2 raise no signal, violation 3 raises exactly
one, and violation 4 raises another. -/
theorem recordViolation_threshold_spec (st : MonitorState) (t ts : String) :
    (∀ reason vs, Effect.autoSubmit reason vs ∈ (recordViolation t ts st).2 ↔
      (reason = "Multiple violations detected" ∧
       vs = (recordViolation t ts st).1.violations ∧
       (recordViolation t ts st).1.violations.length ≥ st.alertThreshold)) ∧
    ((countAutoSubmit (recordViolation "Tab switch detected" "t1"
        initialState).2 = 0) ∧
     (countAutoSubmit (recordViolation "Window lost focus" "t2"
        (recordViolation "Tab switch detected" "t1" initialState).1).2 = 0) ∧
     (countAutoSubmit (recordViolation "Right-click attempted" "t3"
        (recordViolation "Window lost focus" "t2"
          (recordViolation "Tab switch detected" "t1"
            initialState).1).1).2 = 1) ∧
     (countAutoSubmit (recordViolation "Exited fullscreen mode" "t4"
        (recordViolation "Right-click attempted" "t3"
          (recordViolation "Window lost focus" "t2"
            (recordViolation "Tab switch detected" "t1"
              initialState).1).1).1).2 = 1)) := by
  refine ⟨?_, by decide, by decide, by decide, by decide⟩
  intro reason vs
  simp only [recordViolation]
  split_ifs with h
  · simp only [List.mem_cons, List.mem_singleton, List.not_mem_nil,
      or_false]
    constructor
    · rintro (hc | hc)
      · exact absurd hc (by simp)
      · rcases Effect.autoSubmit.inj hc with ⟨h1, h2⟩
        exact ⟨h1, h2, h⟩
    · rintro ⟨h1, h2, _⟩
      exact Or.inr (by rw [h1, h2])
  · simp only [List.mem_singleton]
    constructor
    · intro hc
      exact absurd hc (by simp)
    · rintro ⟨_, _, h3⟩
      exact absurd h3 h

/-- C6 (confirmed): `startMonitoring()` unconditionally sets the monitor
active and resets the violation log to empty, whatever the prior state. -/
theorem startMonitoring_resets (opts : MonitorOptions) (st : MonitorState) :
    (startMonitoring opts st).1.isActive = true ∧
    (startMonitoring opts st).1.violations = [] :=
  ⟨rfl, rfl⟩

theorem handleEvent_inactive (opts : MonitorOptions) (ev : BrowserEvent)
    (ts : String) (st : MonitorState) (h : st.isActive = false) :
    handleEvent opts ev ts st = (st, []) := by
  cases ev <;> simp [handleEvent, h]

theorem runEvents_inactive (opts : MonitorOptions)
    (evs : List (BrowserEvent × String)) (st : MonitorState)
    (h : st.isActive = false) : runEvents opts evs st = st := by
  induction evs generalizing st with
  | nil => rfl
  | cons e rest ih =>
      unfold runEvents
      rw [List.foldl_cons, handleEvent_inactive opts e.1 e.2 st h]
      exact ih st h

/-- C2 (confirmed): while the monitor is inactive, no sequence of
focus/visibility, fullscreen, keyboard, context-menu or select-start events
appends anything to the violation log. -/
theorem inactive_records_no_violation (opts : MonitorOptions)
    (evs : List (BrowserEvent × String)) (st : MonitorState)
    (h : st.isActive = false) :
    (runEvents opts evs st).violations = st.violations := by
  rw [runEvents_inactive opts evs st h]

/-- An inactive monitor that already holds one recorded violation. -/
def inactiveLoggedState : MonitorState :=
  { initialState with violations := [⟨"Right-click attempted", "t0", .low⟩] }

/-- One event of each observed kind, in arbitrary order. -/
def sampleEvents : List (BrowserEvent × String) :=
  [(.visibilitychange true, "t1"), (.blur, "t2"),
   (.fullscreenchange false, "t3"),
   (.keydown "F12" false false false, "t4"),
   (.keydown "I" true true false, "t5"),
   (.contextmenu, "t6"), (.selectstart, "t7")]

/-- Witness for C2: a concrete inactive state with a non-empty log and one
event of every kind. -/
theorem inactive_records_no_violation_witness :
    (runEvents defaultOptions sampleEvents inactiveLoggedState).violations =
      inactiveLoggedState.violations :=
  inactive_records_no_violation defaultOptions sampleEvents
    inactiveLoggedState rfl

/-- C1 (counterexample): with camera monitoring enabled and capture
acquisition failing, `initialize()` does return failure and fires
`onCameraError` once, but `setupEventListeners()` is never reached, so no
signal listener gets registered — refuting the claimed independence of
listener registration from the camera outcome. -/
theorem initMonitor_cameraFailure_cex :
    defaultOptions.enableCameraMonitoring = true ∧
    (initMonitor defaultOptions .err initialState).2.1 = false ∧
    (initMonitor defaultOptions .err initialState).2.2 =
      [.onCameraErrorCall] ∧
    ¬ (initMonitor defaultOptions .err initialState).1.listenersRegistered
        = true := by
  decide

/-- C1 (corrected): when camera monitoring is enabled and capture
acquisition fails, `initialize()` invokes `onCameraError` exactly once and
returns a failure result without raising further, but it does not register
the signal listeners: the whole monitor state is left unchanged, because
listener registration runs after camera setup inside the same `try`. -/
theorem initMonitor_cameraFailure (opts : MonitorOptions)
    (st : MonitorState) (h : opts.enableCameraMonitoring = true) :
    initMonitor opts .err st = (st, false, [.onCameraErrorCall]) := by
  simp [initMonitor, h]

/-- Witness for C1: the default configuration with a failing capture. -/
theorem initMonitor_cameraFailure_witness :
    initMonitor defaultOptions .err initialState =
      (initialState, false, [.onCameraErrorCall]) :=
  initMonitor_cameraFailure defaultOptions initialState rfl

theorem stopMonitoring_allStopped (st : MonitorState) :
    allTracksStopped (stopMonitoring st).stream = true := by
  cases h : st.stream <;>
    simp [stopMonitoring, allTracksStopped, h, List.all_eq_true]

theorem stopMonitoring_videoDetached (st : MonitorState) :
    videoDetached (stopMonitoring st).video = true := by
  cases h : st.video <;> simp [stopMonitoring, videoDetached, h]

theorem stopMonitoring_idem (st : MonitorState) :
    stopMonitoring (stopMonitoring st) = stopMonitoring st := by
  cases hs : st.stream <;> cases hv : st.video <;>
    simp [stopMonitoring, hs, hv, List.map_map, Function.comp]

/-- C8 (confirmed): `stopMonitoring()` deactivates the monitor, stops every
track of any acquired stream and detaches any capture surface, on every
prior state — in particular immediately after any `initialize()` outcome —
and running it a second time changes nothing further. -/
theorem stopMonitoring_spec (st : MonitorState) :
    (stopMonitoring st).isActive = false ∧
    allTracksStopped (stopMonitoring st).stream = true ∧
    videoDetached (stopMonitoring st).video = true ∧
    stopMonitoring (stopMonitoring st) = stopMonitoring st ∧
    (∀ opts cam,
      allTracksStopped
          (stopMonitoring (initMonitor opts cam st).1).stream = true ∧
      videoDetached
          (stopMonitoring (initMonitor opts cam st).1).video = true) :=
  ⟨rfl, stopMonitoring_allStopped st, stopMonitoring_videoDetached st,
   stopMonitoring_idem st,
   fun _ _ => ⟨stopMonitoring_allStopped _, stopMonitoring_videoDetached _⟩⟩

/-- An active monitor on the native detection path with a stored previous
face center (100, 100). -/
def nativeSt : MonitorState :=
  { initialState with
    isActive := true
    faceDetectionModel := true
    lastFacePosition := some (100, 100) }

/-- A face whose bounding box centers at (250, 100). -/
def farFace : Face := ⟨⟨200, 50, 100, 100⟩⟩

/-- A face whose bounding box centers at (140, 100). -/
def nearFace : Face := ⟨⟨90, 50, 100, 100⟩⟩

/-- C7 (confirmed): on the native path, zero faces records the no-face
violation (severity medium); with one face the bounding-box center is
computed, the head-movement violation (severity medium) is recorded exactly
when a previous center exists and `deltaX > 100 ∨ deltaY > 50`, and the
stored last-position always becomes the current center; concretely, from
previous center (100, 100) a face centered at (250, 100) records the
movement violation while one centered at (140, 100) records nothing. -/
theorem analyzeNative_spec (ts : String) (st : MonitorState) :
    ((analyzeNative ts st (.ok [])).1.violations =
      st.violations ++ [⟨"No face detected - looking away", ts, .medium⟩]) ∧
    (∀ face, (analyzeNative ts st (.ok [face])).1.lastFacePosition =
      some (faceCenter face)) ∧
    (∀ face last, st.lastFacePosition = some last →
      ((|(faceCenter face).1 - last.1| > 100 ∨
          |(faceCenter face).2 - last.2| > 50) →
        (analyzeNative ts st (.ok [face])).1.violations =
          st.violations ++
            [⟨"Suspicious head movement detected", ts, .medium⟩]) ∧
      (¬ (|(faceCenter face).1 - last.1| > 100 ∨
            |(faceCenter face).2 - last.2| > 50) →
        (analyzeNative ts st (.ok [face])).1.violations = st.violations)) := by
  refine ⟨?_, fun face => rfl, ?_⟩
  · have h := recordViolation_violations "No face detected - looking away"
      ts st
    rw [show getViolationSeverity "No face detected - looking away" =
      Severity.medium from by decide] at h
    exact h
  · intro face last h
    simp only [analyzeNative, h]
    constructor
    · intro hc
      rw [if_pos hc]
      have h2 := recordViolation_violations
        "Suspicious head movement detected" ts st
      rw [show getViolationSeverity "Suspicious head movement detected" =
        Severity.medium from by decide] at h2
      exact h2
    · intro hc
      rw [if_neg hc]

/-- Witness for C7: from previous center (100, 100), a face centered at
(250, 100) (delta x = 150 > 100) records the head-movement violation, while
a face centered at (140, 100) (delta x = 40) records nothing and still
updates the stored center. -/
theorem analyzeNative_spec_witness :
    ((analyzeNative "t" nativeSt (.ok [farFace])).1.violations =
      nativeSt.violations ++
        [⟨"Suspicious head movement detected", "t", .medium⟩]) ∧
    ((analyzeNative "t" nativeSt (.ok [nearFace])).1.violations =
      nativeSt.violations) ∧
    ((analyzeNative "t" nativeSt (.ok [nearFace])).1.lastFacePosition =
      some (faceCenter nearFace)) :=
  ⟨((analyzeNative_spec "t" nativeSt).2.2 farFace (100, 100) rfl).1
      (by norm_num [faceCenter, farFace]),
   ((analyzeNative_spec "t" nativeSt).2.2 nearFace (100, 100) rfl).2
      (by norm_num [faceCenter, nearFace]),
   (analyzeNative_spec "t" nativeSt).2.1 nearFace⟩

theorem analyzeNative_isActive (ts : String) (st : MonitorState)
    (detect : DetectOutcome) :
    (analyzeNative ts st detect).1.isActive = st.isActive := by
  cases detect with
  | err => rfl
  | ok faces =>
      cases faces with
      | nil => exact (recordViolation_fields _ _ _).1
      | cons face rest =>
          simp only [analyzeNative]
          cases hl : st.lastFacePosition with
          | none => rfl
          | some last =>
              dsimp only
              split_ifs with hc
              · exact (recordViolation_fields _ _ _).1
              · rfl

theorem analyzeFallback_isActive (ts : String) (st : MonitorState)
    (pixels : List Pixel) :
    (analyzeFallback ts st pixels).1.isActive = st.isActive := by
  simp only [analyzeFallback]
  split_ifs with hc
  · exact (recordViolation_fields _ _ _).1
  · rfl

theorem analyzeFacePosition_isActive (ts : String) (st : MonitorState)
    (detect : DetectOutcome) (pixels : List Pixel) :
    (analyzeFacePosition ts st detect pixels).1.isActive = st.isActive := by
  unfold analyzeFacePosition
  split_ifs with hm
  · exact analyzeNative_isActive ts st detect
  · exact analyzeFallback_isActive ts st pixels

theorem startCameraAnalysis_resched (st : MonitorState)
    (detect : DetectOutcome) (pixels : List Pixel) (ts : String)
    (stopDuringAnalysis : Bool) :
    (startCameraAnalysis st detect pixels ts stopDuringAnalysis).2.2 =
      (st.isActive && st.video.isSome && !stopDuringAnalysis) := by
  unfold startCameraAnalysis
  cases hrun : (st.isActive && st.video.isSome) with
  | false => simp
  | true =>
      rw [Bool.and_eq_true] at hrun
      cases stopDuringAnalysis with
      | false => simp [analyzeFacePosition_isActive, hrun.1]
      | true => simp [stopMonitoring]

theorem startCameraAnalysis_inactive (st : MonitorState)
    (detect : DetectOutcome) (pixels : List Pixel) (ts : String)
    (stopDuringAnalysis : Bool) (h : st.isActive = false) :
    startCameraAnalysis st detect pixels ts stopDuringAnalysis =
      (st, [], false) := by
  unfold startCameraAnalysis
  rw [h]
  simp

theorem startCameraAnalysis_resched_active (st : MonitorState)
    (detect : DetectOutcome) (pixels : List Pixel) (ts : String)
    (stopDuringAnalysis : Bool)
    (h : (startCameraAnalysis st detect pixels ts
      stopDuringAnalysis).2.2 = true) :
    (startCameraAnalysis st detect pixels ts
      stopDuringAnalysis).1.isActive = true := by
  unfold startCameraAnalysis at h ⊢
  cases hrun : (st.isActive && st.video.isSome) with
  | false => rw [hrun] at h; simp at h
  | true => rw [hrun] at h; exact h

theorem startCameraAnalysis_errSwallowed (st : MonitorState)
    (pixels : List Pixel) (ts : String) (stopDuringAnalysis : Bool)
    (hm : st.faceDetectionModel = true) :
    (startCameraAnalysis st .err pixels ts
      stopDuringAnalysis).1.violations = st.violations ∧
    (startCameraAnalysis st .err pixels ts stopDuringAnalysis).2.1 = [] := by
  have hr : analyzeFacePosition ts st .err pixels = (st, []) := by
    simp [analyzeFacePosition, hm, analyzeNative]
  unfold startCameraAnalysis
  rw [hr]
  cases hrun : (st.isActive && st.video.isSome) with
  | false => simp
  | true =>
      cases stopDuringAnalysis with
      | false => simp
      | true => simp [stopMonitoring]

/-- C9 (confirmed): a sampler cycle reschedules the next sample exactly when
it ran (active with a video element) and `isActive` still holds at the final
check — so no next cycle is ever scheduled once the monitor is inactive, and
a cycle started while inactive does nothing at all; a failed per-frame
analysis is swallowed: it records no violation, emits no effect, and leaves
the reschedule decision untouched. -/
theorem startCameraAnalysis_spec (st : MonitorState) (detect : DetectOutcome)
    (pixels : List Pixel) (ts : String) (stopDuringAnalysis : Bool) :
    (startCameraAnalysis st detect pixels ts stopDuringAnalysis).2.2 =
      (st.isActive && st.video.isSome && !stopDuringAnalysis) ∧
    (st.isActive = false →
      startCameraAnalysis st detect pixels ts stopDuringAnalysis =
        (st, [], false)) ∧
    ((startCameraAnalysis st detect pixels ts stopDuringAnalysis).2.2 = true →
      (startCameraAnalysis st detect pixels ts
        stopDuringAnalysis).1.isActive = true) ∧
    (st.faceDetectionModel = true → detect = .err →
      (startCameraAnalysis st detect pixels ts
        stopDuringAnalysis).1.violations = st.violations ∧
      (startCameraAnalysis st detect pixels ts stopDuringAnalysis).2.1 =
        []) :=
  ⟨startCameraAnalysis_resched st detect pixels ts stopDuringAnalysis,
   startCameraAnalysis_inactive st detect pixels ts stopDuringAnalysis,
   startCameraAnalysis_resched_active st detect pixels ts stopDuringAnalysis,
   fun hm hd => hd ▸
     startCameraAnalysis_errSwallowed st pixels ts stopDuringAnalysis hm⟩

/-- An active monitor with a video element on the native path. -/
def runningSt : MonitorState :=
  { initialState with
    isActive := true
    video := some ⟨true⟩
    faceDetectionModel := true }

/-- Witness for C9: a failed analysis on an active cycle records nothing,
and a cycle started on an inactive monitor does nothing. -/
theorem startCameraAnalysis_spec_witness :
    ((startCameraAnalysis runningSt .err [] "t" false).1.violations =
        runningSt.violations ∧
     (startCameraAnalysis runningSt .err [] "t" false).2.1 = []) ∧
    startCameraAnalysis initialState .err [] "t" false =
      (initialState, [], false) :=
  ⟨(startCameraAnalysis_spec runningSt .err [] "t" false).2.2.2 rfl rfl,
   (startCameraAnalysis_spec initialState .err [] "t" false).2.1 rfl⟩

/-- C10 (confirmed): on the fallback brightness path, a stored previous
luminance of exactly 0 is falsy, so — whatever the current frame and however
large the luminance difference — no movement violation is recorded and no
effect is emitted, while the stored last-brightness is still updated to the
frame's mean luminance. -/
theorem analyzeFallback_zeroBrightness (ts : String) (st : MonitorState)
    (pixels : List Pixel) (h : st.lastBrightness = some 0) :
    (analyzeFallback ts st pixels).1.violations = st.violations ∧
    (analyzeFallback ts st pixels).2 = [] ∧
    (analyzeFallback ts st pixels).1.lastBrightness =
      some (meanBrightness pixels) := by
  have hfalse : jsNumTruthy st.lastBrightness = false := by
    rw [h]
    decide
  simp only [analyzeFallback]
  split_ifs with hcond
  · rw [hfalse] at hcond
    exact absurd hcond.1 (by simp)
  · exact ⟨rfl, rfl, trivial⟩

/-- An inactive-brightness state: the stored last luminance is exactly 0. -/
def zeroBrightState : MonitorState :=
  { initialState with lastBrightness := some 0 }

/-- A uniformly bright frame of mean luminance 240. -/
def brightFrame : List Pixel := [⟨240, 240, 240, 255⟩]

/-- Witness for C10: with stored luminance 0 and a frame of mean luminance
240 (difference 240, far above the 20 threshold) nothing is recorded and the
stored luminance becomes 240. -/
theorem analyzeFallback_zeroBrightness_witness :
    (meanBrightness brightFrame = 240 ∧ |(240 : ℚ) - 0| > 20) ∧
    ((analyzeFallback "t" zeroBrightState brightFrame).1.violations =
        zeroBrightState.violations ∧
     (analyzeFallback "t" zeroBrightState brightFrame).2 = [] ∧
     (analyzeFallback "t" zeroBrightState brightFrame).1.lastBrightness =
        some (meanBrightness brightFrame)) :=
  ⟨⟨by norm_num [meanBrightness, brightFrame], by norm_num⟩,
   analyzeFallback_zeroBrightness "t" zeroBrightState brightFrame rfl⟩

end TestMonitor
